import Mathlib

set_option maxRecDepth 16384

/-
Shallow embedding of the multi-platform crawl orchestration engine of the
agent-bds repository (src/crawlers/orchestrator.py, src/crawlers/http_client.py,
src/crawlers/adapters/base.py, src/crawlers/adapters/batdongsan.py).

Conventions of the embedding:
* Python `Optional[T]` becomes `Option T`; a fallible computation becomes a
  function returning `Option`/a sum.
* Numeric prices/areas (`float` in the source) are modelled as natural numbers
  of VND / m^2; the only operations the verified code performs on them are
  truthiness tests (`if listing.price`) and decimal string rendering
  (`str(listing.price)`), both of which are preserved: `none` and `some 0` are
  falsy, `toString` renders the decimal form.
* Wall-clock instants (`datetime.utcnow()`, `time.time()`) are rationals
  (seconds); `timedelta(seconds = n)` is addition.
* Python string operations (`.lower()`, `.strip()`, slicing `[:50]`) are
  defined structurally on the string's code-point list (`pyLower`, `pyStrip`,
  `pyTake` below), matching Python's per-code-point semantics and keeping the
  definitions kernel-executable.
-/

/-- `SearchStatus` (orchestrator.py lines 31-39).  The source constructor
`PARTIAL` is spelled `partialRes` here because `partial` is a Lean keyword. -/
inductive SearchStatus where
  | pending
  | running
  | success
  | partialRes
  | blocked
  | error
  | timeout
deriving DecidableEq, Repr

/-- `CrawlErrorType` (adapters/base.py lines 29-37). -/
inductive CrawlErrorType where
  | timeout
  | blocked
  | rateLimited
  | parseError
  | networkError
  | notFound
  | unknown
deriving DecidableEq, Repr

/-- The `.value` string of a `CrawlErrorType` member (the `str` Enum values in
adapters/base.py); used by `CrawlError.__str__`. -/
def CrawlErrorType.val : CrawlErrorType → String
  | .timeout => "timeout"
  | .blocked => "blocked"
  | .rateLimited => "rate_limited"
  | .parseError => "parse_error"
  | .networkError => "network_error"
  | .notFound => "not_found"
  | .unknown => "unknown"

/-- `UnifiedListing` (adapters/base.py lines 85-145).  The timestamp fields
(`posted_at`, `crawled_at`) and the debugging payload `raw_data` are omitted:
they record wall-clock parse time / opaque raw HTML and no verified claim
mentions them.  All other fields keep the source's defaults (`""` for `title`
and `url`, `None` elsewhere). -/
structure UnifiedListing where
  id : String
  platform : String
  title : String := ""
  description : Option String := none
  price : Option Nat := none
  price_text : Option String := none
  area : Option Nat := none
  area_text : Option String := none
  address : Option String := none
  ward : Option String := none
  district : Option String := none
  city : Option String := none
  contact_name : Option String := none
  contact_phone : Option String := none
  contact_zalo : Option String := none
  contact_email : Option String := none
  property_type : Option String := none
  bedrooms : Option Nat := none
  bathrooms : Option Nat := none
  floors : Option Nat := none
  direction : Option String := none
  image_url : Option String := none
  images : List String := []
  url : String := ""
deriving DecidableEq, Repr

/-- Python `str.lower()`: per-code-point lowercasing. -/
def pyLower (s : String) : String :=
  String.mk (s.data.map Char.toLower)

/-- Python `str.strip()`: drop whitespace from both ends. -/
def pyStrip (s : String) : String :=
  String.mk (((s.data.dropWhile Char.isWhitespace).reverse.dropWhile
    Char.isWhitespace).reverse)

/-- Python slicing `s[:n]`: the first `n` code points. -/
def pyTake (s : String) (n : Nat) : String :=
  String.mk (s.data.take n)

namespace SearchOrchestrator

/-- The deduplication key built in `_deduplicate_listings`
(orchestrator.py lines 420-424):

    title_norm = (listing.title or "").lower().strip()
    price_key = str(listing.price) if listing.price else ""
    dedup_key = f"{title_norm[:50]}|{price_key}"

Note `if listing.price` is a Python truthiness test: it selects the empty
string both when the price is `None` and when it is `0`. -/
def dedupKey (l : UnifiedListing) : String :=
  let titleNorm := pyStrip (pyLower l.title)
  let priceKey := match l.price with
    | some p => if p ≠ 0 then toString p else ""
    | none => ""
  pyTake titleNorm 50 ++ "|" ++ priceKey

/-- The deduplication key as the specification words it: "the string form of
its numeric price, using the empty string when the price is absent" — i.e. the
price's decimal form whenever a price is present (including zero).  This
definition follows the spec's words and is compared against `dedupKey`, the
key the source actually computes. -/
def claimDedupKey (l : UnifiedListing) : String :=
  let titleNorm := pyStrip (pyLower l.title)
  let priceKey := match l.price with
    | some p => toString p
    | none => ""
  pyTake titleNorm 50 ++ "|" ++ priceKey

/-- The loop of `_deduplicate_listings` (orchestrator.py lines 417-430): the
`seen` set of keys is modelled as a list (membership is all the source uses). -/
def dedupGo (seen : List String) : List UnifiedListing → List UnifiedListing
  | [] => []
  | l :: ls =>
    if dedupKey l ∈ seen then dedupGo seen ls
    else l :: dedupGo (dedupKey l :: seen) ls

/-- `SearchOrchestrator._deduplicate_listings` (orchestrator.py lines 409-430). -/
def deduplicateListings (listings : List UnifiedListing) : List UnifiedListing :=
  dedupGo [] listings

theorem dedupGo_sublist (ls : List UnifiedListing) :
    ∀ seen, (dedupGo seen ls).Sublist ls := by
  induction ls with
  | nil => intro seen; simp [dedupGo]
  | cons l ls ih =>
    intro seen
    by_cases h : dedupKey l ∈ seen
    · simp only [dedupGo, if_pos h]
      exact (ih seen).cons l
    · simp only [dedupGo, if_neg h]
      exact (ih (dedupKey l :: seen)).cons₂ l

theorem dedupGo_not_seen (ls : List UnifiedListing) :
    ∀ seen l, l ∈ dedupGo seen ls → dedupKey l ∉ seen := by
  induction ls with
  | nil => intro seen l h; simp [dedupGo] at h
  | cons x ls ih =>
    intro seen l hmem
    by_cases h : dedupKey x ∈ seen
    · simp only [dedupGo, if_pos h] at hmem
      exact ih seen l hmem
    · simp only [dedupGo, if_neg h] at hmem
      rcases List.mem_cons.mp hmem with rfl | hmem
      · exact h
      · have := ih (dedupKey x :: seen) l hmem
        intro hc; exact this (List.mem_cons_of_mem _ hc)

theorem dedupGo_pairwise (ls : List UnifiedListing) :
    ∀ seen, (dedupGo seen ls).Pairwise (fun a b => dedupKey a ≠ dedupKey b) := by
  induction ls with
  | nil => intro seen; simp [dedupGo]
  | cons l ls ih =>
    intro seen
    by_cases h : dedupKey l ∈ seen
    · simp only [dedupGo, if_pos h]; exact ih seen
    · simp only [dedupGo, if_neg h]
      refine List.Pairwise.cons ?_ (ih (dedupKey l :: seen))
      intro b hb
      have := dedupGo_not_seen ls (dedupKey l :: seen) b hb
      intro hc
      exact this (by rw [← hc]; exact List.mem_cons_self _ _)

theorem dedupGo_covers (ls : List UnifiedListing) :
    ∀ seen l, l ∈ ls →
      dedupKey l ∈ seen ∨ ∃ l' ∈ dedupGo seen ls, dedupKey l' = dedupKey l := by
  induction ls with
  | nil => intro seen l h; simp at h
  | cons x ls ih =>
    intro seen l hmem
    by_cases h : dedupKey x ∈ seen
    · simp only [dedupGo, if_pos h]
      rcases List.mem_cons.mp hmem with rfl | hmem
      · exact Or.inl h
      · exact ih seen l hmem
    · simp only [dedupGo, if_neg h]
      rcases List.mem_cons.mp hmem with rfl | hmem
      · exact Or.inr ⟨l, List.mem_cons_self _ _, rfl⟩
      · rcases ih (dedupKey x :: seen) l hmem with hseen | ⟨l', hl', hk⟩
        · rcases List.mem_cons.mp hseen with hk | hseen
          · exact Or.inr ⟨x, List.mem_cons_self _ _, hk.symm⟩
          · exact Or.inl hseen
        · exact Or.inr ⟨l', List.mem_cons_of_mem _ hl', hk⟩

theorem dedupGo_first_occ (ls : List UnifiedListing) :
    ∀ seen l', l' ∈ dedupGo seen ls →
      ls.find? (fun x => dedupKey x == dedupKey l') = some l' := by
  induction ls with
  | nil => intro seen l' h; simp [dedupGo] at h
  | cons x ls ih =>
    intro seen l' hmem
    by_cases h : dedupKey x ∈ seen
    · simp only [dedupGo, if_pos h] at hmem
      have hne : dedupKey x ≠ dedupKey l' := by
        intro hc
        exact dedupGo_not_seen ls seen l' hmem (hc ▸ h)
      rw [List.find?_cons_of_neg _ (by simpa using hne)]
      exact ih seen l' hmem
    · simp only [dedupGo, if_neg h] at hmem
      rcases List.mem_cons.mp hmem with rfl | hmem
      · rw [List.find?_cons_of_pos _ (by simp)]
      · have hne : dedupKey x ≠ dedupKey l' := by
          intro hc
          exact dedupGo_not_seen ls (dedupKey x :: seen) l' hmem
            (by rw [hc]; exact List.mem_cons_self _ _)
        rw [List.find?_cons_of_neg _ (by simpa using hne)]
        exact ih (dedupKey x :: seen) l' hmem

theorem dedupGo_id_of_pairwise (ls : List UnifiedListing) :
    ∀ seen, (∀ l ∈ ls, dedupKey l ∉ seen) →
      ls.Pairwise (fun a b => dedupKey a ≠ dedupKey b) →
      dedupGo seen ls = ls := by
  induction ls with
  | nil => intro seen _ _; simp [dedupGo]
  | cons x ls ih =>
    intro seen hseen hpw
    have hx : dedupKey x ∉ seen := hseen x (List.mem_cons_self _ _)
    simp only [dedupGo, if_neg hx]
    rcases List.pairwise_cons.mp hpw with ⟨hx2, hpw'⟩
    congr 1
    apply ih
    · intro l hl
      intro hc
      rcases List.mem_cons.mp hc with hk | hk
      · exact hx2 l hl hk.symm
      · exact hseen l (List.mem_cons_of_mem _ hl) hk
    · exact hpw'

/-- C9: the orchestrator's deduplication is idempotent — running
`_deduplicate_listings` on its own output returns that output unchanged. -/
theorem dedup_idempotent (ls : List UnifiedListing) :
    deduplicateListings (deduplicateListings ls) = deduplicateListings ls := by
  unfold deduplicateListings
  apply dedupGo_id_of_pairwise
  · intro l _; simp
  · exact dedupGo_pairwise ls []

/-- C3 (amended): `_deduplicate_listings` keeps exactly the first occurrence of
each key, where the key is the first 50 characters of the lower-cased, trimmed
title concatenated (through `|`) with the decimal form of the price — and the
empty string when the price is absent *or zero* (Python's `if listing.price`
truthiness).  The output is a subsequence of the input, no two output listings
share a key, every input listing shares a key with some output listing, and
every output listing is the first input listing bearing its key. -/
theorem dedup_first_occurrence (ls : List UnifiedListing) :
    (deduplicateListings ls).Sublist ls ∧
    (deduplicateListings ls).Pairwise (fun a b => dedupKey a ≠ dedupKey b) ∧
    (∀ l ∈ ls, ∃ l' ∈ deduplicateListings ls, dedupKey l' = dedupKey l) ∧
    (∀ l' ∈ deduplicateListings ls,
      ls.find? (fun x => dedupKey x == dedupKey l') = some l') := by
  refine ⟨dedupGo_sublist ls [], dedupGo_pairwise ls [], ?_, ?_⟩
  · intro l hl
    rcases dedupGo_covers ls [] l hl with h | h
    · simp at h
    · exact h
  · intro l' hl'
    exact dedupGo_first_occ ls [] l' hl'

/-- A listing whose parsed price is the number zero. -/
def listingPriceZero : UnifiedListing :=
  { id := "p_1", platform := "p", title := "Nha dep", price := some 0 }

/-- A listing with the same title and no price at all. -/
def listingPriceNone : UnifiedListing :=
  { id := "p_2", platform := "p", title := "Nha dep", price := none }

/-- C3 (counterexample): the claim's key — "string form of the numeric price,
empty only when the price is absent" — differs from the key the code computes.
A listing with price `0` and a listing with no price have distinct claim keys
(`"nha dep|0"` vs `"nha dep|"`), so per the claim both must survive; but the
code's `if listing.price` truthiness maps both to the same key `"nha dep|"`,
and the second listing is dropped: no output listing bears its claim key. -/
theorem dedup_claim_key_cex :
    deduplicateListings [listingPriceZero, listingPriceNone] = [listingPriceZero] ∧
    claimDedupKey listingPriceZero ≠ claimDedupKey listingPriceNone ∧
    ¬ ∃ l ∈ deduplicateListings [listingPriceZero, listingPriceNone],
        claimDedupKey l = claimDedupKey listingPriceNone := by
  refine ⟨by decide, by decide, ?_⟩
  decide

/-- C3 witness: the amended theorem applied at a concrete input list. -/
theorem dedup_first_occurrence_witness :
    listingPriceNone ∈ [listingPriceZero, listingPriceNone] ∧
    ∃ l' ∈ deduplicateListings [listingPriceZero, listingPriceNone],
      dedupKey l' = dedupKey listingPriceNone :=
  ⟨by decide,
   (dedup_first_occurrence [listingPriceZero, listingPriceNone]).2.2.1
     listingPriceNone (by decide)⟩

/-- The normalized search parameters the orchestrator passes to
`adapter.build_search_url` (orchestrator.py lines 209-219). -/
structure SearchParams where
  query : String
  city : Option String := none
  district : Option String := none
  min_price : Option Nat := none
  max_price : Option Nat := none
  min_area : Option Nat := none
  max_area : Option Nat := none
  page : Nat := 1
deriving DecidableEq, Repr

/-- `PlatformSearchResult` (orchestrator.py lines 42-52).  `duration_ms`
is kept but the model does not track wall-clock durations (always 0). -/
structure PlatformSearchResult where
  platform_id : String
  platform_name : String
  status : SearchStatus
  listings : List UnifiedListing := []
  error : Option String := none
  error_type : Option CrawlErrorType := none
  duration_ms : Nat := 0
  url_attempted : Option String := none
deriving DecidableEq, Repr

/-- `AggregatedSearchResult` (orchestrator.py lines 55-67); the creation
timestamp is omitted (wall clock). -/
structure AggregatedSearchResult where
  query : String
  total_listings : Nat
  platforms_searched : Nat
  platforms_successful : Nat
  platforms_blocked : Nat
  platforms_error : Nat
  listings : List UnifiedListing
  platform_results : List PlatformSearchResult
  search_duration_ms : Nat
deriving DecidableEq, Repr

/-- A platform adapter as the orchestrator consumes it (duck-typed in the
source).  `J` is the type of decoded JSON values (the result of `json.loads`
on a body), left abstract; `parse_api_response` is `some` exactly when
`hasattr(adapter, 'parse_api_response')` holds.  Parsing functions are total:
`_search_platform` wraps the whole unit in `except Exception`, and an
exception escaping a parser is modelled by the `FetchOutcome.raised` case. -/
structure Adapter (J : Type) where
  platform_name : String
  supports_api : Bool := false
  parse_api_response : Option (J → List UnifiedListing) := none
  parse_search_results : String → List UnifiedListing
  build_search_url : SearchParams → String

/-- The observable outcome of the awaited fetch inside `_search_platform`
(orchestrator.py lines 299-305 and the handlers at 352-407):
`timedOut` is `asyncio.TimeoutError` from `asyncio.wait_for`; `raised` is any
other exception escaping the awaited call (caught by the generic
`except Exception` handler); `fetched` is the `(html, status_code, error)`
tuple returned by `PoliteHttpClient.get`. -/
inductive FetchOutcome where
  | timedOut
  | raised (msg : String)
  | fetched (html : Option String) (status : Option Nat) (error : Option String)
deriving DecidableEq, Repr

/-- One platform task of a search run: the registry entry
(`platform_id`, adapter) plus the fetch outcome its task observes. -/
structure PlatformRun (J : Type) where
  platform_id : String
  adapter : Adapter J
  outcome : FetchOutcome

/-- Rendering of an `Optional[int]` status code inside the f-string
`f"HTTP {status_code}"`. -/
def statusText : Option Nat → String
  | some n => toString n
  | none => "None"

/-- The parse-selection step of `_search_platform` (orchestrator.py lines
322-333): when the adapter has `parse_api_response` and declares
`supports_api`, try `json.loads` first and fall back to
`parse_search_results` when decoding fails; otherwise parse as HTML.
`jsonLoads` is the decoder (`json.loads`, `none` = `JSONDecodeError`). -/
def apiOrHtml {J : Type} (jsonLoads : String → Option J) (a : Adapter J)
    (body : String) : List UnifiedListing :=
  match a.parse_api_response, a.supports_api with
  | some f, true =>
    match jsonLoads body with
    | some d => f d
    | none => a.parse_search_results body
  | _, _ => a.parse_search_results body

/-- `SearchOrchestrator._search_platform` (orchestrator.py lines 275-407) as a
function of the fetch outcome.  The `if error or not html` guard raises
`BlockedError` on 403 / `RateLimitError` on 429 / a network `CrawlError`
otherwise; the `except CrawlError` handler then maps error type `BLOCKED` to
status `BLOCKED` and everything else to `ERROR`, recording `str(e)`
(`"<error_type.value>: <message>"`). -/
def searchPlatform {J : Type} (jsonLoads : String → Option J) (pid : String)
    (a : Adapter J) (params : SearchParams) (out : FetchOutcome) :
    PlatformSearchResult :=
  let url := a.build_search_url params
  match out with
  | .timedOut =>
    { platform_id := pid, platform_name := a.platform_name,
      status := .timeout, listings := [],
      error := some "Request timed out", error_type := some .timeout }
  | .raised msg =>
    { platform_id := pid, platform_name := a.platform_name,
      status := .error, listings := [],
      error := some msg, error_type := some .parseError }
  | .fetched html st err =>
    if err.isSome ∨ html = none ∨ html = some "" then
      if st = some 403 then
        { platform_id := pid, platform_name := a.platform_name,
          status := .blocked, listings := [],
          error := some (CrawlErrorType.blocked.val ++ ": " ++
            err.getD "Access forbidden"),
          error_type := some .blocked }
      else if st = some 429 then
        { platform_id := pid, platform_name := a.platform_name,
          status := .error, listings := [],
          error := some (CrawlErrorType.rateLimited.val ++ ": " ++
            err.getD "Rate limited"),
          error_type := some .rateLimited }
      else
        { platform_id := pid, platform_name := a.platform_name,
          status := .error, listings := [],
          error := some (CrawlErrorType.networkError.val ++ ": " ++
            err.getD ("HTTP " ++ statusText st)),
          error_type := some .networkError }
    else
      { platform_id := pid, platform_name := a.platform_name,
        status := .success,
        listings := apiOrHtml jsonLoads a (html.getD ""),
        error := none, error_type := none, url_attempted := some url }

/-- `SearchOrchestrator.search` (orchestrator.py lines 146-273).  The
candidate platforms with their fetch outcomes are the `runs` list; the
`gather` of tasks is the `map` (no entry of it is an exception, because
`searchPlatform` is total — mirroring that `_search_platform` catches every
exception — so the `isinstance(result, Exception)` skip never fires). -/
def search {J : Type} (jsonLoads : String → Option J) (params : SearchParams)
    (runs : List (PlatformRun J)) : AggregatedSearchResult :=
  if runs.isEmpty then
    { query := params.query, total_listings := 0, platforms_searched := 0,
      platforms_successful := 0, platforms_blocked := 0, platforms_error := 0,
      listings := [], platform_results := [], search_duration_ms := 0 }
  else
    let platformResults := runs.map (fun run =>
      searchPlatform jsonLoads run.platform_id run.adapter params run.outcome)
    let allListings := platformResults.flatMap (fun r => r.listings)
    let deduplicated := deduplicateListings allListings
    { query := params.query,
      total_listings := deduplicated.length,
      platforms_searched := platformResults.length,
      platforms_successful :=
        platformResults.countP (fun r => decide (r.status = .success)),
      platforms_blocked :=
        platformResults.countP (fun r => decide (r.status = .blocked)),
      platforms_error :=
        platformResults.countP
          (fun r => decide (r.status = .error ∨ r.status = .timeout)),
      listings := deduplicated,
      platform_results := platformResults,
      search_duration_ms := 0 }

theorem searchPlatform_status_cases {J : Type} (jsonLoads : String → Option J)
    (pid : String) (a : Adapter J) (params : SearchParams) (out : FetchOutcome) :
    (searchPlatform jsonLoads pid a params out).status = .success ∨
    (searchPlatform jsonLoads pid a params out).status = .blocked ∨
    (searchPlatform jsonLoads pid a params out).status = .error ∨
    (searchPlatform jsonLoads pid a params out).status = .timeout := by
  cases out with
  | timedOut => simp [searchPlatform]
  | raised msg => simp [searchPlatform]
  | fetched html st err =>
    simp only [searchPlatform]
    split_ifs <;> simp

theorem countP_status_partition (l : List PlatformSearchResult)
    (h : ∀ r ∈ l, r.status = .success ∨ r.status = .blocked ∨
      r.status = .error ∨ r.status = .timeout) :
    l.countP (fun r => decide (r.status = .success)) +
    l.countP (fun r => decide (r.status = .blocked)) +
    l.countP (fun r => decide (r.status = .error ∨ r.status = .timeout)) =
    l.length := by
  induction l with
  | nil => simp
  | cons x l ih =>
    have hx := h x (List.mem_cons_self _ _)
    have ih' := ih (fun r hr => h r (List.mem_cons_of_mem _ hr))
    rcases hx with hx | hx | hx | hx <;>
      simp [List.countP_cons, List.length_cons, hx] <;> simp at ih' <;> omega

/-- C2: in every `AggregatedSearchResult` returned by `search`, the aggregate
counters are exactly the counts over `platform_results` (searched = length,
successful = #SUCCESS, blocked = #BLOCKED, error = #ERROR or TIMEOUT),
`total_listings` is the length of the deduplicated `listings`, and the three
status counters sum to `platforms_searched`. -/
theorem search_counts_reconcile {J : Type} (jsonLoads : String → Option J)
    (params : SearchParams) (runs : List (PlatformRun J)) :
    (search jsonLoads params runs).platforms_searched =
      (search jsonLoads params runs).platform_results.length ∧
    (search jsonLoads params runs).platforms_successful =
      (search jsonLoads params runs).platform_results.countP
        (fun r => decide (r.status = .success)) ∧
    (search jsonLoads params runs).platforms_blocked =
      (search jsonLoads params runs).platform_results.countP
        (fun r => decide (r.status = .blocked)) ∧
    (search jsonLoads params runs).platforms_error =
      (search jsonLoads params runs).platform_results.countP
        (fun r => decide (r.status = .error ∨ r.status = .timeout)) ∧
    (search jsonLoads params runs).total_listings =
      (search jsonLoads params runs).listings.length ∧
    (search jsonLoads params runs).platforms_successful +
      (search jsonLoads params runs).platforms_blocked +
      (search jsonLoads params runs).platforms_error =
      (search jsonLoads params runs).platforms_searched := by
  by_cases hempty : runs.isEmpty = true
  · simp [search, hempty]
  · simp only [search, if_neg hempty]
    refine ⟨trivial, trivial, trivial, trivial, trivial, ?_⟩
    rw [List.length_map] at *
    have := countP_status_partition
      (runs.map (fun run =>
        searchPlatform jsonLoads run.platform_id run.adapter params run.outcome))
      (by
        intro r hr
        rcases List.mem_map.mp hr with ⟨run, _, rfl⟩
        exact searchPlatform_status_cases jsonLoads run.platform_id run.adapter
          params run.outcome)
    simpa using this

/-- C10: every `PlatformSearchResult` inside an `AggregatedSearchResult`
returned by `search` has status SUCCESS, BLOCKED, ERROR or TIMEOUT; the
remaining `SearchStatus` members (PENDING, RUNNING, PARTIAL) never appear. -/
theorem platform_result_status_range {J : Type} (jsonLoads : String → Option J)
    (params : SearchParams) (runs : List (PlatformRun J))
    (pr : PlatformSearchResult)
    (h : pr ∈ (search jsonLoads params runs).platform_results) :
    pr.status = .success ∨ pr.status = .blocked ∨
    pr.status = .error ∨ pr.status = .timeout := by
  by_cases hempty : runs.isEmpty = true
  · simp [search, hempty] at h
  · simp only [search, if_neg hempty] at h
    rcases List.mem_map.mp h with ⟨run, _, rfl⟩
    exact searchPlatform_status_cases jsonLoads run.platform_id run.adapter
      params run.outcome

/-- C1: with at least one candidate, `search` returns (totally — the model is
a Lean function, mirroring that `_search_platform` catches `TimeoutError`,
`CrawlError` and `Exception`) an aggregate holding exactly one
`PlatformSearchResult` per candidate, each computed from that candidate's
own run alone (so no platform's failure, timeout or block can remove or
alter another's entry); the task of every platform whose fetch succeeded has
status SUCCESS and carries exactly its parsed listings; and each such listing
shares its deduplication key with a listing of the aggregated list. -/
theorem search_graceful_degradation {J : Type} (jsonLoads : String → Option J)
    (params : SearchParams) (runs : List (PlatformRun J)) (hne : runs ≠ []) :
    ((search jsonLoads params runs).platform_results = runs.map (fun run =>
      searchPlatform jsonLoads run.platform_id run.adapter params run.outcome)) ∧
    ((search jsonLoads params runs).listings = deduplicateListings
      ((runs.map (fun run =>
        searchPlatform jsonLoads run.platform_id run.adapter params
          run.outcome)).flatMap (fun r => r.listings))) ∧
    (∀ run ∈ runs, ∀ html st, run.outcome = .fetched (some html) st none →
      html ≠ "" →
      searchPlatform jsonLoads run.platform_id run.adapter params run.outcome =
        { platform_id := run.platform_id,
          platform_name := run.adapter.platform_name,
          status := .success,
          listings := apiOrHtml jsonLoads run.adapter html,
          error := none, error_type := none, duration_ms := 0,
          url_attempted := some (run.adapter.build_search_url params) }) ∧
    (∀ run ∈ runs, ∀ html st, run.outcome = .fetched (some html) st none →
      html ≠ "" → ∀ l ∈ apiOrHtml jsonLoads run.adapter html,
      ∃ l' ∈ (search jsonLoads params runs).listings,
        dedupKey l' = dedupKey l) := by
  have hempty : ¬ (runs.isEmpty = true) := by
    cases runs with
    | nil => exact absurd rfl hne
    | cons a l => simp
  have hsuccess : ∀ run ∈ runs, ∀ html st,
      run.outcome = .fetched (some html) st none → html ≠ "" →
      searchPlatform jsonLoads run.platform_id run.adapter params run.outcome =
        { platform_id := run.platform_id,
          platform_name := run.adapter.platform_name,
          status := .success,
          listings := apiOrHtml jsonLoads run.adapter html,
          error := none, error_type := none, duration_ms := 0,
          url_attempted := some (run.adapter.build_search_url params) } := by
    intro run _ html st hout hhtml
    rw [hout]
    simp only [searchPlatform]
    rw [if_neg]
    · rfl
    · simp [hhtml]
  refine ⟨?_, ?_, hsuccess, ?_⟩
  · simp only [search, if_neg hempty]
  · simp only [search, if_neg hempty]
  · intro run hrun html st hout hhtml l hl
    have hres := hsuccess run hrun html st hout hhtml
    have hmem : l ∈ (runs.map (fun run =>
        searchPlatform jsonLoads run.platform_id run.adapter params
          run.outcome)).flatMap (fun r => r.listings) := by
      apply List.mem_flatMap.mpr
      refine ⟨searchPlatform jsonLoads run.platform_id run.adapter params
        run.outcome, List.mem_map_of_mem _ hrun, ?_⟩
      rw [hres]
      exact hl
    have hcov := dedupGo_covers _ [] l hmem
    rcases hcov with hc | ⟨l', hl', hk⟩
    · simp at hc
    · refine ⟨l', ?_, hk⟩
      simp only [search, if_neg hempty]
      exact hl'

/-- C8: when the adapter provides `parse_api_response` and declares
`supports_api`, the platform task decodes the body as JSON first (using the
API parser on success) and on decode failure falls back to
`parse_search_results` on the same body, without raising — the task still
finishes with status SUCCESS. -/
theorem searchPlatform_api_fallback {J : Type} (jsonLoads : String → Option J)
    (pid : String) (a : Adapter J) (params : SearchParams) (html : String)
    (st : Option Nat) (f : J → List UnifiedListing)
    (hapi : a.parse_api_response = some f) (hsup : a.supports_api = true)
    (hhtml : html ≠ "") :
    (searchPlatform jsonLoads pid a params
        (.fetched (some html) st none)).status = .success ∧
    (jsonLoads html = none →
      (searchPlatform jsonLoads pid a params
        (.fetched (some html) st none)).listings =
        a.parse_search_results html) ∧
    (∀ d, jsonLoads html = some d →
      (searchPlatform jsonLoads pid a params
        (.fetched (some html) st none)).listings = f d) := by
  have hcond : ¬ ((none : Option String).isSome = true ∨
      (some html : Option String) = none ∨ some html = some "") := by
    simp [hhtml]
  refine ⟨?_, ?_, ?_⟩
  · simp only [searchPlatform]
    rw [if_neg hcond]
  · intro hjl
    simp only [searchPlatform]
    rw [if_neg hcond]
    simp only [Option.getD_some, apiOrHtml, hapi, hsup, hjl]
  · intro d hjl
    simp only [searchPlatform]
    rw [if_neg hcond]
    simp only [Option.getD_some, apiOrHtml, hapi, hsup, hjl]

/-- Concrete data exercising the orchestrator theorems. -/
def theQuery : SearchParams := { query := "nha pho" }

/-- A decoder that never succeeds (every body is invalid JSON). -/
def jlNone : String → Option Unit := fun _ => none

def wListingA : UnifiedListing :=
  { id := "a_1", platform := "a", title := "Can ho 2PN Cau Giay",
    price := some 2500000000 }

def adapterA : Adapter Unit :=
  { platform_name := "Platform A",
    parse_search_results := fun _ => [wListingA],
    build_search_url := fun _ => "https://a.example/search" }

def adapterB : Adapter Unit :=
  { platform_name := "Platform B",
    parse_search_results := fun _ => [],
    build_search_url := fun _ => "https://b.example/search" }

def wRuns : List (PlatformRun Unit) :=
  [ { platform_id := "a", adapter := adapterA,
      outcome := .fetched (some "<html>") (some 200) none },
    { platform_id := "b", adapter := adapterB, outcome := .timedOut } ]

/-- C1 witness: the graceful-degradation theorem applied to a concrete run in
which platform `a` succeeds and platform `b` times out. -/
theorem search_graceful_degradation_witness :
    wRuns ≠ [] ∧
    (search jlNone theQuery wRuns).platform_results = wRuns.map (fun run =>
      searchPlatform jlNone run.platform_id run.adapter theQuery run.outcome) :=
  ⟨by simp [wRuns], (search_graceful_degradation jlNone theQuery wRuns
    (by simp [wRuns])).1⟩

/-- C10 witness: the status-range theorem applied to the timed-out entry of
the concrete run. -/
theorem platform_result_status_range_witness :
    searchPlatform jlNone "b" adapterB theQuery .timedOut ∈
      (search jlNone theQuery wRuns).platform_results ∧
    ((searchPlatform jlNone "b" adapterB theQuery .timedOut).status = .success ∨
     (searchPlatform jlNone "b" adapterB theQuery .timedOut).status = .blocked ∨
     (searchPlatform jlNone "b" adapterB theQuery .timedOut).status = .error ∨
     (searchPlatform jlNone "b" adapterB theQuery .timedOut).status = .timeout) := by
  have hmem : searchPlatform jlNone "b" adapterB theQuery .timedOut ∈
      (search jlNone theQuery wRuns).platform_results := by
    simp [search, wRuns]
  exact ⟨hmem, platform_result_status_range jlNone theQuery wRuns _ hmem⟩

def adapterApi : Adapter Unit :=
  { platform_name := "API Platform", supports_api := true,
    parse_api_response := some (fun _ => []),
    parse_search_results := fun _ => [wListingA],
    build_search_url := fun _ => "https://c.example/api" }

/-- C8 witness: the fallback theorem applied to an adapter with
`supports_api = true` receiving a non-JSON body. -/
theorem searchPlatform_api_fallback_witness :
    (searchPlatform jlNone "c" adapterApi theQuery
      (.fetched (some "<html>error</html>") (some 200) none)).listings =
      adapterApi.parse_search_results "<html>error</html>" :=
  (searchPlatform_api_fallback jlNone "c" adapterApi theQuery
    "<html>error</html>" (some 200) (fun _ => []) rfl rfl (by decide)).2.1 rfl

end SearchOrchestrator

namespace PoliteHttpClient

/-- `RequestStats` (http_client.py lines 88-97): per-domain counters.  Times
are rational seconds (`time.time()` for `last_request_time`,
`datetime.utcnow()` for `blocked_until`). -/
structure RequestStats where
  request_count : Nat := 0
  error_count : Nat := 0
  success_count : Nat := 0
  last_request_time : ℚ := 0
  blocked_until : Option ℚ := none
  consecutive_403s : Nat := 0
  last_user_agent : String := ""
deriving DecidableEq, Repr

/-- `ProxyConfig` (http_client.py lines 100-112); `from_env` reads process
environment variables and is not modelled. -/
structure ProxyConfig where
  url : String
  enabled : Bool := true
deriving DecidableEq, Repr

/-- The client configuration fixed in `PoliteHttpClient.__init__`
(http_client.py lines 129-159), keeping the source defaults. -/
structure ClientConfig where
  rate_limit_rpm : Nat := 15
  max_retries : Nat := 5
  enable_cache : Bool := true
  proxy : Option ProxyConfig := none
deriving DecidableEq, Repr

/-- `PoliteHttpClient._is_blocked` (http_client.py lines 268-273): a domain is
blocked when `blocked_until` is set and still in the future.  A `datetime` is
always truthy, so `stats.blocked_until and utcnow < stats.blocked_until` is
exactly the `some` case. -/
def isBlocked (stats : RequestStats) (nowUtc : ℚ) : Bool :=
  match stats.blocked_until with
  | some t => decide (nowUtc < t)
  | none => false

/-- `PoliteHttpClient._mark_blocked` (http_client.py lines 275-283): set the
block window, bump the 403/error counters and rotate the User-Agent (the
random draw is the `newUa` argument). -/
def markBlocked (stats : RequestStats) (nowUtc : ℚ) (durationSeconds : Nat)
    (newUa : String) : RequestStats :=
  { stats with
    blocked_until := some (nowUtc + (durationSeconds : ℚ)),
    consecutive_403s := stats.consecutive_403s + 1,
    error_count := stats.error_count + 1,
    last_user_agent := newUa }

/-- `PoliteHttpClient._mark_success` (http_client.py lines 285-290). -/
def markSuccess (stats : RequestStats) : RequestStats :=
  { stats with
    consecutive_403s := 0,
    blocked_until := none,
    success_count := stats.success_count + 1 }

/-- `PoliteHttpClient._get_proxy_config` truthiness
(http_client.py lines 292-296 and the check on line 334):
`self.proxy and self.proxy.enabled`. -/
def proxyEnabled (cfg : ClientConfig) : Bool :=
  match cfg.proxy with
  | some p => p.enabled
  | none => false

/-- `PoliteHttpClient._wait_for_rate_limit` (http_client.py lines 246-266).
`now` is the `time.time()` reading on entry; `jit` is the draw of
`random.uniform(0.8, 2.0)` and `ext` the draw of `random.uniform(0.3, 1.5)`.
Returns the updated stats together with the sleep performed (`none` when no
sleep was needed).  After a sleep of `w` seconds the closing
`stats.last_request_time = time.time()` reads `now + w` (the task is resumed
as soon as the sleep elapses). -/
def waitForRateLimit (cfg : ClientConfig) (stats : RequestStats)
    (now jit ext : ℚ) : RequestStats × Option ℚ :=
  if cfg.rate_limit_rpm = 0 then (stats, none)
  else
    let minInterval : ℚ := 60 / (cfg.rate_limit_rpm : ℚ)
    let elapsed := now - stats.last_request_time
    if elapsed < minInterval then
      let waitTime := (minInterval - elapsed) * jit + ext
      ({ stats with
          last_request_time := now + waitTime,
          request_count := stats.request_count + 1 }, some waitTime)
    else
      ({ stats with
          last_request_time := now,
          request_count := stats.request_count + 1 }, none)

/-- The outcome of one network attempt inside the retry loop of
`PoliteHttpClient.get` (http_client.py lines 356-471).  A `response` carries
the wall-clock instant `time` at which the handler runs (the `utcnow` that
`_mark_blocked` would read), the status code, the body text, the parsed
integer `Retry-After` header (absent when the header is missing) and the
User-Agent draw used if this attempt rotates identity.  The exception
constructors are `httpx.TimeoutException`, `httpx.ConnectError` and the
generic `except Exception` case; `httpx.ProxyError` (which disables the proxy
and retries) is not modelled — no claim concerns it. -/
inductive Attempt where
  | response (time : ℚ) (status : Nat) (body : String)
      (retryAfter : Option Nat) (ua : String)
  | timeoutExn
  | connectExn (msg : String)
  | otherExn (msg : String)
deriving DecidableEq, Repr

/-- The result of a `get` call: the `(html, status_code, error)` tuple the
source returns, plus the final per-domain stats, the number of network
attempts actually issued and whether the rate limiter slept. -/
structure GetOutcome where
  body : Option String
  status : Option Nat
  error : Option String
  stats : RequestStats
  attemptsUsed : Nat
  sleptRate : Bool
deriving DecidableEq, Repr

/-- The `for attempt in range(self.max_retries)` retry loop of
`PoliteHttpClient.get` (http_client.py lines 356-473), consuming one scripted
`Attempt` per network request.  Cookie/referer bookkeeping and response
caching are outside the modelled state; backoff sleeps happen inside the
recursive cases.  Falling off the loop (or off the script) returns
`(None, None, "Max retries exceeded")` (line 473). -/
def runRetries (maxRetries : Nat) :
    List Attempt → Nat → RequestStats → GetOutcome
  | [], _, stats =>
    { body := none, status := none, error := some "Max retries exceeded",
      stats := stats, attemptsUsed := 0, sleptRate := false }
  | a :: rest, attempt, stats =>
    if maxRetries ≤ attempt then
      { body := none, status := none, error := some "Max retries exceeded",
        stats := stats, attemptsUsed := 0, sleptRate := false }
    else
      match a with
      | .response t st bodyStr retryAfter ua =>
        if st = 200 then
          { body := some bodyStr, status := some 200, error := none,
            stats := markSuccess stats, attemptsUsed := 1, sleptRate := false }
        else if st = 403 then
          let stats1 := { stats with last_user_agent := ua }
          if attempt < maxRetries - 1 then
            let r := runRetries maxRetries rest (attempt + 1) stats1
            { r with attemptsUsed := r.attemptsUsed + 1 }
          else
            { body := none, status := some 403,
              error := some "Access forbidden - site blocks automated access",
              stats := markBlocked stats1 t 60 ua, attemptsUsed := 1,
              sleptRate := false }
        else if st = 429 then
          let ra := retryAfter.getD 60
          { body := none, status := some 429,
            error := some ("Rate limited - retry after " ++ toString ra ++ "s"),
            stats := markBlocked stats t ra ua, attemptsUsed := 1,
            sleptRate := false }
        else if st = 404 then
          { body := none, status := some 404, error := some "Page not found",
            stats := stats, attemptsUsed := 1, sleptRate := false }
        else if 500 ≤ st then
          if attempt < maxRetries - 1 then
            let r := runRetries maxRetries rest (attempt + 1) stats
            { r with attemptsUsed := r.attemptsUsed + 1 }
          else
            { body := none, status := some st,
              error := some ("Server error: " ++ toString st),
              stats := stats, attemptsUsed := 1, sleptRate := false }
        else
          { body := none, status := some st,
            error := some ("Unexpected status: " ++ toString st),
            stats := stats, attemptsUsed := 1, sleptRate := false }
      | .timeoutExn =>
        if attempt < maxRetries - 1 then
          let r := runRetries maxRetries rest (attempt + 1) stats
          { r with attemptsUsed := r.attemptsUsed + 1 }
        else
          { body := none, status := none, error := some "Request timed out",
            stats := stats, attemptsUsed := 1, sleptRate := false }
      | .connectExn msg =>
        if attempt < maxRetries - 1 then
          let r := runRetries maxRetries rest (attempt + 1) stats
          { r with attemptsUsed := r.attemptsUsed + 1 }
        else
          { body := none, status := none,
            error := some ("Connection error: " ++ msg),
            stats := stats, attemptsUsed := 1, sleptRate := false }
      | .otherExn msg =>
        { body := none, status := none,
          error := some ("Unexpected error: " ++ msg),
          stats := stats, attemptsUsed := 1, sleptRate := false }

/-- `PoliteHttpClient.get` (http_client.py lines 298-473) for one call:
URL percent-encoding is a pure transformation folded into the given `domain`
and cache key; `cached` is `self._cache.get(encoded_url)`; `nowUtc` /
`nowMono` are the clock readings at the blocked-check / rate-limit steps;
`script` is the scripted sequence of network-attempt outcomes.  The steps in
source order: cache hit returns `(body, 200, None)`; a blocked domain with no
enabled proxy fails fast `(None, 403, blocked-message)` issuing no sleep and
no attempt; a blocked domain with an enabled proxy has the block cleared and
proceeds; otherwise rate-limit then enter the retry loop. -/
def get (cfg : ClientConfig) (domain : String) (cached : Option String)
    (useCache : Bool) (stats : RequestStats) (nowUtc nowMono jit ext : ℚ)
    (script : List Attempt) : GetOutcome :=
  if useCache && cfg.enable_cache && cached.isSome then
    { body := cached, status := some 200, error := none, stats := stats,
      attemptsUsed := 0, sleptRate := false }
  else if isBlocked stats nowUtc then
    if proxyEnabled cfg then
      let stats1 := { stats with blocked_until := none }
      let p := waitForRateLimit cfg stats1 nowMono jit ext
      let r := runRetries cfg.max_retries script 0 p.1
      { r with sleptRate := p.2.isSome }
    else
      { body := none, status := some 403,
        error := some ("Domain " ++ domain ++ " is temporarily blocked"),
        stats := stats, attemptsUsed := 0, sleptRate := false }
  else
    let p := waitForRateLimit cfg stats nowMono jit ext
    let r := runRetries cfg.max_retries script 0 p.1
    { r with sleptRate := p.2.isSome }

/-- C4: a `get` on a domain whose `blocked_until` lies in the future, with no
cache hit available, fails fast when no proxy is enabled — the very tuple
`(None, 403, "Domain <d> is temporarily blocked")`, with zero network
attempts, no rate-limit sleep and untouched stats — and, when a proxy is
enabled, instead clears the block (`blocked_until := none`) and proceeds to
the rate limiter and the retry loop. -/
theorem get_blocked_fastfail (cfg : ClientConfig) (domain : String)
    (cached : Option String) (useCache : Bool) (stats : RequestStats)
    (nowUtc nowMono jit ext : ℚ) (script : List Attempt)
    (hblocked : isBlocked stats nowUtc = true)
    (hcache : useCache = false ∨ cached = none ∨ cfg.enable_cache = false) :
    (proxyEnabled cfg = false →
      get cfg domain cached useCache stats nowUtc nowMono jit ext script =
        { body := none, status := some 403,
          error := some ("Domain " ++ domain ++ " is temporarily blocked"),
          stats := stats, attemptsUsed := 0, sleptRate := false }) ∧
    (proxyEnabled cfg = true →
      get cfg domain cached useCache stats nowUtc nowMono jit ext script =
        (let p := waitForRateLimit cfg { stats with blocked_until := none }
          nowMono jit ext
         let r := runRetries cfg.max_retries script 0 p.1
         { r with sleptRate := p.2.isSome })) := by
  have hc : (useCache && cfg.enable_cache && cached.isSome) = false := by
    rcases hcache with h | h | h <;> simp [h]
  constructor <;> intro hp <;> simp [get, hc, hblocked, hp]

def wBlockedStats : RequestStats := { blocked_until := some 100 }

def cfg0 : ClientConfig := {}

/-- C4 witness: a concrete blocked domain, empty cache, no proxy. -/
theorem get_blocked_fastfail_witness :
    isBlocked wBlockedStats 50 = true ∧
    get cfg0 "batdongsan.com.vn" none true wBlockedStats 50 0 1 (1/2)
      [.response 0 200 "late" none "u"] =
      { body := none, status := some 403,
        error := some ("Domain " ++ "batdongsan.com.vn" ++
          " is temporarily blocked"),
        stats := wBlockedStats, attemptsUsed := 0, sleptRate := false } :=
  ⟨by decide,
   (get_blocked_fastfail cfg0 "batdongsan.com.vn" none true wBlockedStats
      50 0 1 (1/2) [.response 0 200 "late" none "u"] (by decide)
      (Or.inr (Or.inl rfl))).1 rfl⟩

/-- Whether the retry loop, at attempt index `attempt`, consumes this attempt
outcome and retries: a 403 or 5xx response, a timeout or a connection error,
each with retry budget remaining (`attempt < max_retries - 1`). -/
def retriesOn (maxRetries attempt : Nat) : Attempt → Bool
  | .response _ st _ _ _ =>
    (decide (st = 403) || decide (500 ≤ st)) && decide (attempt < maxRetries - 1)
  | .timeoutExn => decide (attempt < maxRetries - 1)
  | .connectExn _ => decide (attempt < maxRetries - 1)
  | .otherExn _ => false

/-- The identity rotation a retried attempt performs on the per-domain stats:
a 403 draws a fresh User-Agent (and clears cookies, outside the modelled
state); other retried outcomes leave the stats unchanged. -/
def rotateThrough (stats : RequestStats) : Attempt → RequestStats
  | .response _ st _ _ ua =>
    if st = 403 then { stats with last_user_agent := ua } else stats
  | _ => stats

theorem runRetries_reaches_429 (maxRetries : Nat) (pre : List Attempt) :
    ∀ (attempt : Nat) (stats : RequestStats) (t : ℚ) (bodyStr : String)
      (ra : Option Nat) (ua : String) (post : List Attempt),
    (∀ i, i < pre.length →
      retriesOn maxRetries (attempt + i) (pre.getD i .timeoutExn) = true) →
    attempt + pre.length < maxRetries →
    (runRetries maxRetries (pre ++ .response t 429 bodyStr ra ua :: post)
        attempt stats).body = none ∧
    (runRetries maxRetries (pre ++ .response t 429 bodyStr ra ua :: post)
        attempt stats).status = some 429 ∧
    (runRetries maxRetries (pre ++ .response t 429 bodyStr ra ua :: post)
        attempt stats).error =
      some ("Rate limited - retry after " ++ toString (ra.getD 60) ++ "s") ∧
    (runRetries maxRetries (pre ++ .response t 429 bodyStr ra ua :: post)
        attempt stats).attemptsUsed = pre.length + 1 ∧
    (runRetries maxRetries (pre ++ .response t 429 bodyStr ra ua :: post)
        attempt stats).stats.blocked_until =
      some (t + ((ra.getD 60 : Nat) : ℚ)) := by
  induction pre with
  | nil =>
    intro attempt stats t bodyStr ra ua post _ hbudget
    have hguard : ¬ (maxRetries ≤ attempt) := by
      simp only [List.length_nil, Nat.add_zero] at hbudget; omega
    simp [runRetries, markBlocked, hguard]
  | cons a pre ih =>
    intro attempt stats t bodyStr ra ua post hpre hbudget
    have h0 : retriesOn maxRetries attempt a = true := by
      have := hpre 0 (by simp)
      simpa using this
    have hshift : ∀ i, i < pre.length →
        retriesOn maxRetries (attempt + 1 + i) (pre.getD i .timeoutExn) = true := by
      intro i hi
      have := hpre (i + 1) (by simp; omega)
      have heq : attempt + (i + 1) = attempt + 1 + i := by omega
      simpa [heq] using this
    have hbudget' : attempt + 1 + pre.length < maxRetries := by
      simp only [List.length_cons] at hbudget; omega
    have step := ih (attempt + 1) (rotateThrough stats a) t bodyStr ra ua post
      hshift hbudget'
    cases a with
    | response t2 st2 b2 ra2 ua2 =>
      simp only [retriesOn, Bool.and_eq_true, Bool.or_eq_true,
        decide_eq_true_eq] at h0
      obtain ⟨hst, hlt⟩ := h0
      have hguard : ¬ (maxRetries ≤ attempt) := by omega
      rcases hst with hst | hst
      · subst hst
        simp only [List.cons_append, runRetries, if_neg hguard]
        norm_num [hlt]
        simpa [rotateThrough, List.length_cons] using step
      · have h200 : st2 ≠ 200 := by omega
        have h403 : st2 ≠ 403 := by omega
        have h429 : st2 ≠ 429 := by omega
        have h404 : st2 ≠ 404 := by omega
        simp only [List.cons_append, runRetries, if_neg hguard, if_neg h200,
          if_neg h403, if_neg h429, if_neg h404, if_pos hst, if_pos hlt]
        have hrot : rotateThrough stats (.response t2 st2 b2 ra2 ua2) = stats := by
          simp [rotateThrough, h403]
        rw [hrot] at step
        simpa [List.length_cons] using step
    | timeoutExn =>
      simp only [retriesOn, decide_eq_true_eq] at h0
      have hguard : ¬ (maxRetries ≤ attempt) := by omega
      simp only [List.cons_append, runRetries, if_neg hguard, if_pos h0]
      have hrot : rotateThrough stats .timeoutExn = stats := by
        simp [rotateThrough]
      rw [hrot] at step
      simpa [List.length_cons] using step
    | connectExn msg =>
      simp only [retriesOn, decide_eq_true_eq] at h0
      have hguard : ¬ (maxRetries ≤ attempt) := by omega
      simp only [List.cons_append, runRetries, if_neg hguard, if_pos h0]
      have hrot : rotateThrough stats (.connectExn msg) = stats := by
        simp [rotateThrough]
      rw [hrot] at step
      simpa [List.length_cons] using step
    | otherExn msg =>
      simp [retriesOn] at h0

/-- C6: whenever the server answers 429 on some attempt of a `get` call (here:
after a prefix of retried attempts, with retry budget remaining), the call
returns at once with `(None, 429, "Rate limited - retry after <n>s")` where
`n` is the integer `Retry-After` header (60 when the header is absent), sets
the domain block to exactly `utcnow + n` seconds, and issues no further
attempt in this call — the attempts used are exactly the prefix plus the 429
one, no matter how much retry budget or script remains. -/
theorem get_429_no_retry (cfg : ClientConfig) (domain : String)
    (cached : Option String) (useCache : Bool) (stats : RequestStats)
    (nowUtc nowMono jit ext : ℚ) (pre post : List Attempt) (t : ℚ)
    (bodyStr : String) (ra : Option Nat) (ua : String)
    (hcache : useCache = false ∨ cached = none ∨ cfg.enable_cache = false)
    (hnb : isBlocked stats nowUtc = false)
    (hpre : ∀ i, i < pre.length →
      retriesOn cfg.max_retries i (pre.getD i .timeoutExn) = true)
    (hbudget : pre.length < cfg.max_retries) :
    (get cfg domain cached useCache stats nowUtc nowMono jit ext
        (pre ++ .response t 429 bodyStr ra ua :: post)).body = none ∧
    (get cfg domain cached useCache stats nowUtc nowMono jit ext
        (pre ++ .response t 429 bodyStr ra ua :: post)).status = some 429 ∧
    (get cfg domain cached useCache stats nowUtc nowMono jit ext
        (pre ++ .response t 429 bodyStr ra ua :: post)).error =
      some ("Rate limited - retry after " ++ toString (ra.getD 60) ++ "s") ∧
    (get cfg domain cached useCache stats nowUtc nowMono jit ext
        (pre ++ .response t 429 bodyStr ra ua :: post)).attemptsUsed =
      pre.length + 1 ∧
    (get cfg domain cached useCache stats nowUtc nowMono jit ext
        (pre ++ .response t 429 bodyStr ra ua :: post)).stats.blocked_until =
      some (t + ((ra.getD 60 : Nat) : ℚ)) := by
  have hc : (useCache && cfg.enable_cache && cached.isSome) = false := by
    rcases hcache with h | h | h <;> simp [h]
  have key := runRetries_reaches_429 cfg.max_retries pre 0
    (waitForRateLimit cfg stats nowMono jit ext).1 t bodyStr ra ua post
    (by intro i hi; simpa using hpre i hi)
    (by simpa using hbudget)
  simp only [get, hc, Bool.false_eq_true, if_false, hnb]
  exact key

/-- C6 witness: a 500 response retried once, then a 429 with
`Retry-After: 30` at `utcnow = 100`; a 200 remains unconsumed in the script. -/
theorem get_429_no_retry_witness :
    (get cfg0 "x.vn" none true {} 0 0 1 (1/2)
      ([.response 90 500 "" none "u"] ++
        .response 100 429 "" (some 30) "u2" :: [.response 110 200 "late" none "u3"])).attemptsUsed =
      [Attempt.response 90 500 "" none "u"].length + 1 ∧
    (get cfg0 "x.vn" none true {} 0 0 1 (1/2)
      ([.response 90 500 "" none "u"] ++
        .response 100 429 "" (some 30) "u2" :: [.response 110 200 "late" none "u3"])).stats.blocked_until =
      some (100 + (((some 30).getD 60 : Nat) : ℚ)) := by
  have h := get_429_no_retry cfg0 "x.vn" none true {} 0 0 1 (1/2)
    [.response 90 500 "" none "u"] [.response 110 200 "late" none "u3"]
    100 "" (some 30) "u2" (Or.inr (Or.inl rfl)) (by decide)
    (by
      intro i hi
      have h0 : i = 0 := by simp at hi; omega
      subst h0
      decide)
    (by decide)
  exact ⟨h.2.2.2.1, h.2.2.2.2⟩

/-- C5 (amended): when calls of `_wait_for_rate_limit` for a domain do not
overlap, each call completes (and stamps `last_request_time`) no sooner than
`(60 / rate_limit_rpm) x 0.8` seconds after the previous stamp, for any
jitter draw `jit` in `[0.8, 2.0]` and extra delay `ext` in `[0.3, 1.5]`.
(This is the spacing of wait completions — the recorded request times; the
claim's stronger statement about actual request issue times, including
concurrently running tasks, is refuted by `rate_limit_concurrent_cex`.) -/
theorem rate_wait_min_spacing (cfg : ClientConfig) (stats : RequestStats)
    (now jit ext : ℚ) (hrpm : 0 < cfg.rate_limit_rpm)
    (hnow : stats.last_request_time ≤ now)
    (hjit : 4/5 ≤ jit) (hext : 3/10 ≤ ext) :
    stats.last_request_time + (60 / (cfg.rate_limit_rpm : ℚ)) * (4/5) ≤
      (waitForRateLimit cfg stats now jit ext).1.last_request_time := by
  have hne : cfg.rate_limit_rpm ≠ 0 := by omega
  have hm : (0 : ℚ) < 60 / (cfg.rate_limit_rpm : ℚ) := by
    apply div_pos (by norm_num)
    exact_mod_cast hrpm
  simp only [waitForRateLimit, if_neg hne]
  set m : ℚ := 60 / (cfg.rate_limit_rpm : ℚ) with hmdef
  set e : ℚ := now - stats.last_request_time with hedef
  have he : 0 ≤ e := by simp [hedef]; linarith
  by_cases hcase : e < m
  · simp only [if_pos hcase]
    have hprod : 0 ≤ (jit - 4/5) * (m - e) := by
      apply mul_nonneg <;> linarith
    have hexp : (m - e) * jit = (m - e) * (4/5) + (jit - 4/5) * (m - e) := by
      ring
    nlinarith
  · simp only [if_neg hcase]
    push_neg at hcase
    linarith

def wSeqStats : RequestStats := { last_request_time := 0 }

/-- C5 witness: the amended spacing theorem applied at concrete values
(default config, minimum jitter draws). -/
theorem rate_wait_min_spacing_witness :
    wSeqStats.last_request_time + (60 / (cfg0.rate_limit_rpm : ℚ)) * (4/5) ≤
      (waitForRateLimit cfg0 wSeqStats 1 (4/5) (3/10)).1.last_request_time :=
  rate_wait_min_spacing cfg0 wSeqStats 1 (4/5) (3/10) (by decide)
    (by norm_num [wSeqStats]) (le_refl _) (le_refl _)

/-- Two tasks concurrently inside `_wait_for_rate_limit` for the same domain.
The body of `_wait_for_rate_limit` reads `stats.last_request_time`, computes
the wait, and only writes the new `stats.last_request_time` after
`await asyncio.sleep(wait_time)` returns; the sleep is an asyncio suspension
point, so a second task entering the function while the first sleeps reads
the *same* stored `last_request_time` (there is no per-domain lock).  Task
`i` enters at clock `rᵢ` with jitter/extra draws `jᵢ, eᵢ`, and after its wait
issues its network request following the `random.uniform(0.1, 0.4)` pre-
request delay `dᵢ` (http_client.py line 371; the client semaphore has
capacity 3, so with two tasks neither waits on it). -/
structure OverlapWaits where
  lastReq : ℚ
  r1 : ℚ
  r2 : ℚ
  j1 : ℚ
  e1 : ℚ
  j2 : ℚ
  e2 : ℚ
  d1 : ℚ
  d2 : ℚ
deriving DecidableEq, Repr

def statsAt (t : ℚ) : RequestStats := { last_request_time := t }

/-- Wake instant (= new `last_request_time` stamp) of task 1's wait. -/
def wake1 (cfg : ClientConfig) (w : OverlapWaits) : ℚ :=
  (waitForRateLimit cfg (statsAt w.lastReq) w.r1 w.j1 w.e1).1.last_request_time

/-- Wake instant of task 2's wait, which read the same stored timestamp. -/
def wake2 (cfg : ClientConfig) (w : OverlapWaits) : ℚ :=
  (waitForRateLimit cfg (statsAt w.lastReq) w.r2 w.j2 w.e2).1.last_request_time

/-- The instant task 1 issues its network request. -/
def issueTime1 (cfg : ClientConfig) (w : OverlapWaits) : ℚ :=
  wake1 cfg w + w.d1

/-- The instant task 2 issues its network request. -/
def issueTime2 (cfg : ClientConfig) (w : OverlapWaits) : ℚ :=
  wake2 cfg w + w.d2

/-- The schedule is realizable: entries are ordered after the stored
timestamp, task 2 enters (and reads) strictly before task 1's write at
`wake1`, and every random draw lies in the interval the source draws it
from (`jitter` in `[0.8, 2]`, extra delay in `[0.3, 1.5]`, pre-request delay
in `[0.1, 0.4]`). -/
def validOverlap (cfg : ClientConfig) (w : OverlapWaits) : Prop :=
  w.lastReq ≤ w.r1 ∧ w.r1 ≤ w.r2 ∧ w.r2 < wake1 cfg w ∧
  4/5 ≤ w.j1 ∧ w.j1 ≤ 2 ∧ 4/5 ≤ w.j2 ∧ w.j2 ≤ 2 ∧
  3/10 ≤ w.e1 ∧ w.e1 ≤ 3/2 ∧ 3/10 ≤ w.e2 ∧ w.e2 ≤ 3/2 ∧
  1/10 ≤ w.d1 ∧ w.d1 ≤ 2/5 ∧ 1/10 ≤ w.d2 ∧ w.d2 ≤ 2/5

/-- The concrete interleaving: the previous request stamped time 0; both
tasks enter shortly after (0.1s and 0.2s), draw the minimum jitter and extra
delay, and 0.4s / 0.4s pre-request delays. -/
def cexOverlap : OverlapWaits :=
  { lastReq := 0, r1 := 1/10, r2 := 1/5, j1 := 4/5, e1 := 3/10,
    j2 := 4/5, e2 := 3/10, d1 := 2/5, d2 := 2/5 }

/-- C5 (counterexample): under the default configuration (15 rpm, so minimum
interval 4s and claimed bound 3.2s), a legal concurrent schedule — both
tasks read `last_request_time` before either writes it, every random draw in
range — makes the two requests to the same domain only 0.02s apart, far below
`(60 / rate_limit_rpm) x 0.8`: the unsynchronized read-sleep-write of
`_wait_for_rate_limit` does not enforce the claimed per-domain interval for
concurrently running tasks. -/
theorem rate_limit_concurrent_cex :
    validOverlap cfg0 cexOverlap ∧
    issueTime1 cfg0 cexOverlap < issueTime2 cfg0 cexOverlap ∧
    issueTime2 cfg0 cexOverlap - issueTime1 cfg0 cexOverlap <
      (60 / (cfg0.rate_limit_rpm : ℚ)) * (4/5) := by
  have hw1 : wake1 cfg0 cexOverlap = 88/25 := by
    norm_num [wake1, statsAt, waitForRateLimit, cfg0, cexOverlap]
  have hw2 : wake2 cfg0 cexOverlap = 177/50 := by
    norm_num [wake2, statsAt, waitForRateLimit, cfg0, cexOverlap]
  refine ⟨?_, ?_, ?_⟩
  · unfold validOverlap
    rw [hw1]
    refine ⟨?_, ?_, ?_, ?_, ?_, ?_, ?_, ?_, ?_, ?_, ?_, ?_, ?_, ?_, ?_⟩ <;>
      norm_num [cexOverlap]
  · simp only [issueTime1, issueTime2]
    rw [hw1, hw2]
    norm_num [cexOverlap]
  · simp only [issueTime1, issueTime2]
    rw [hw1, hw2]
    norm_num [cexOverlap, cfg0]

end PoliteHttpClient

namespace BatDongSanAdapter

/-- `BatDongSanAdapter.platform_id` (batdongsan.py line 33). -/
def platformId : String := "batdongsan"

/-- `BatDongSanAdapter.base_url` (batdongsan.py line 35). -/
def baseUrl : String := "https://batdongsan.com.vn"

/-- Python `str.startswith(p)`, structurally on code points. -/
def pyStartsWith (s p : String) : Bool :=
  decide (s.data.take p.data.length = p.data)

/-- The external text normalizers the adapter calls (the `parsers` package —
an out-of-scope collaborator per the spec) plus Python's builtin `hash`
(process-salted, hence an arbitrary function).  The adapter theorems are
quantified over all of them. -/
structure Normalizers where
  parsePrice : String → Option Nat
  parseArea : String → Option Nat
  detectCity : String → Option String
  detectDistrict : String → Option String → Option String
  parsePhones : String → List String
  hashString : String → Int

/-- Python's `a or b` over optional strings: `None` and `""` are falsy
(`detect_city(location) or detect_city(title)`). -/
def pyOr (a b : Option String) : Option String :=
  match a with
  | some s => if s = "" then b else some s
  | none => b

/-- What `_parse_listing_card` reads off one listing card's DOM
(batdongsan.py lines 128-183): the title element's text (`none` when the
title selector misses — the card is rejected), its `href` attribute (`none`
when absent, defaulted to `""` by `.get("href", "")`), the price/area/location
texts (`""` when the selector misses), and the image source
(`data-src or src`, coalesced). -/
structure ListingCard where
  titleText : Option String := none
  href : Option String := none
  priceText : String := ""
  areaText : String := ""
  locationText : String := ""
  imgSrc : Option String := none
deriving DecidableEq, Repr

/-- The regex `re.search(r"-pr(\d+)\.html?$|/(\d+)$", url)` of
`_parse_listing_card` (batdongsan.py line 143), `group(1) or group(2)`:
either trailing `-pr<digits>.html` / `-pr<digits>.htm`, or a trailing
`/<digits>`; the empty string when nothing matches. -/
def trySuffix (cs suffix : List Char) : Option String :=
  if cs.length < suffix.length then none
  else if cs.drop (cs.length - suffix.length) = suffix then
    let rest := cs.take (cs.length - suffix.length)
    let ds := (rest.reverse.takeWhile Char.isDigit).reverse
    if ds ≠ [] ∧ (rest.take (rest.length - ds.length)).reverse.take 3 =
        ['r', 'p', '-'] then
      some (String.mk ds)
    else none
  else none

def extractListingId (url : String) : String :=
  let cs := url.data
  match trySuffix cs ['.', 'h', 't', 'm', 'l'] with
  | some d => d
  | none =>
    match trySuffix cs ['.', 'h', 't', 'm'] with
    | some d => d
    | none =>
      let ds := (cs.reverse.takeWhile Char.isDigit).reverse
      if ds ≠ [] ∧ (cs.take (cs.length - ds.length)).reverse.take 1 = ['/'] then
        String.mk ds
      else ""

/-- The URL step of `_parse_listing_card` (batdongsan.py lines 136-138):
`url = title_elem.get("href", "")`, absolutized by prefixing `base_url`
when non-empty and not already starting with `http`. -/
def cardUrl (card : ListingCard) : String :=
  let url0 := card.href.getD ""
  if url0 ≠ "" ∧ pyStartsWith url0 "http" = false then baseUrl ++ url0
  else url0

/-- The listing-id step (batdongsan.py lines 140-145): the regex capture when
the URL is non-empty, else `""`. -/
def cardListingId (card : ListingCard) : String :=
  if cardUrl card ≠ "" then extractListingId (cardUrl card) else ""

/-- The unified-id step (batdongsan.py line 170):
`f"<platform>_<listing_id>"`, falling back to `f"<platform>_<hash(url)>"`
when no native id was captured. -/
def cardId (nz : Normalizers) (card : ListingCard) : String :=
  if cardListingId card ≠ "" then platformId ++ "_" ++ cardListingId card
  else platformId ++ "_" ++ toString (nz.hashString (cardUrl card))

/-- `BatDongSanAdapter._parse_listing_card` (batdongsan.py lines 128-183).
A card without a title element is rejected (`return None`). -/
def parseListingCard (nz : Normalizers) (card : ListingCard) :
    Option UnifiedListing :=
  match card.titleText with
  | none => none
  | some title =>
    let city := pyOr (nz.detectCity card.locationText) (nz.detectCity title)
    some
      { id := cardId nz card,
        platform := platformId,
        title := title,
        price := nz.parsePrice card.priceText,
        price_text := some card.priceText,
        area := nz.parseArea card.areaText,
        area_text := some card.areaText,
        city := city,
        district := pyOr (nz.detectDistrict card.locationText city)
          (nz.detectDistrict title city),
        address := some card.locationText,
        url := cardUrl card,
        image_url := card.imgSrc }

/-- `BatDongSanAdapter.parse_search_results` (batdongsan.py lines 109-126):
parse each card container, skipping cards that are rejected (and, in the
source, cards whose parse raises — the per-card `except` continues). -/
def parseSearchResults (nz : Normalizers) (cards : List ListingCard) :
    List UnifiedListing :=
  cards.filterMap (parseListingCard nz)

/-- What `parse_detail_page` reads off a detail page's DOM (batdongsan.py
lines 185-274): element texts default to `""` when a selector misses; the
bedrooms/bathrooms/floors are the values its spec-table regex loop extracts. -/
structure DetailPage where
  titleText : String := ""
  priceText : String := ""
  areaText : String := ""
  descriptionText : String := ""
  locationText : String := ""
  contactName : Option String := none
  phoneText : String := ""
  imageSrcs : List String := []
  bedrooms : Option Nat := none
  bathrooms : Option Nat := none
  floors : Option Nat := none
deriving DecidableEq, Repr

/-- `BatDongSanAdapter.parse_detail_page` (batdongsan.py lines 185-274):
always returns a listing with `id = f"<platform>_<listing_id>"` and
`url = f"<base_url>/ban-nha-pr<listing_id>"`. -/
def parseDetailPage (nz : Normalizers) (page : DetailPage)
    (listingId : String) : UnifiedListing :=
  let title := page.titleText
  let city := pyOr (nz.detectCity page.locationText) (nz.detectCity title)
  let phones := nz.parsePhones (page.phoneText ++ " " ++ page.descriptionText)
  { id := platformId ++ "_" ++ listingId,
    platform := platformId,
    title := title,
    description := some page.descriptionText,
    price := nz.parsePrice page.priceText,
    price_text := some page.priceText,
    area := nz.parseArea page.areaText,
    area_text := some page.areaText,
    city := city,
    district := pyOr (nz.detectDistrict page.locationText city)
      (nz.detectDistrict title city),
    address := some page.locationText,
    url := baseUrl ++ "/ban-nha-pr" ++ listingId,
    image_url := page.imageSrcs.head?,
    contact_name := page.contactName,
    contact_phone := phones.head?,
    bedrooms := page.bedrooms,
    bathrooms := page.bathrooms,
    floors := page.floors }

theorem platformId_ne_empty : platformId ≠ "" := by decide

theorem append_left_ne_empty (s t : String) (hs : s ≠ "") : s ++ t ≠ "" := by
  intro h
  apply hs
  have hd := congrArg String.data h
  rw [String.data_append] at hd
  have hempty : ("" : String).data = [] := rfl
  rw [hempty] at hd
  have hnil : s.data = [] := (List.append_eq_nil.mp hd).1
  apply String.ext
  rw [hnil, hempty]

theorem pyStartsWith_baseUrl (s : String) :
    pyStartsWith (baseUrl ++ s) "http" = true := by
  simp only [pyStartsWith, decide_eq_true_eq, String.data_append]
  rw [List.take_append_of_le_length (by decide)]
  decide

/-- A card whose title element carries no `href` at all. -/
def cardNoHref : ListingCard :=
  { titleText := some "Ban nha mat pho Hai Ba Trung", href := none }

/-- Normalizers that extract nothing (legal behavior for the collaborators:
they may return `None` on any input). -/
def nzTrivial : Normalizers :=
  { parsePrice := fun _ => none, parseArea := fun _ => none,
    detectCity := fun _ => none, detectDistrict := fun _ _ => none,
    parsePhones := fun _ => [], hashString := fun _ => 0 }

/-- C7 (counterexample): a search-result card whose title element has no
`href` is *returned*, not rejected — `_parse_listing_card` only rejects when
the title element is missing — and its `url` field is the empty string, which
is not an absolute URL.  So "url is always absolute or the listing is
rejected" fails on the code. -/
theorem parse_card_no_href_cex :
    (parseListingCard nzTrivial cardNoHref).isSome = true ∧
    Option.map (fun l => l.url) (parseListingCard nzTrivial cardNoHref) =
      some "" ∧
    pyStartsWith "" "http" = false := by
  refine ⟨?_, ?_, ?_⟩ <;> decide

/-- C7 (amended): every listing returned by `_parse_listing_card` has
non-empty `id` and `platform`; its `url` is absolute (begins with `http`)
whenever the card's `href` is non-empty — a relative `href` is absolutized
with `base_url` — but a card with an empty or missing `href` yields a listing
with an empty `url` instead of being rejected.  Every listing returned by
`parse_detail_page` has non-empty `id` and `platform` and an absolute `url`
(`base_url ++ "/ban-nha-pr" ++ id`). -/
theorem parse_listing_invariants :
    (∀ (nz : Normalizers) (card : ListingCard) (l : UnifiedListing),
      parseListingCard nz card = some l →
      l.id ≠ "" ∧ l.platform ≠ "" ∧
      (card.href.getD "" ≠ "" → pyStartsWith l.url "http" = true)) ∧
    (∀ (nz : Normalizers) (page : DetailPage) (lid : String),
      (parseDetailPage nz page lid).id ≠ "" ∧
      (parseDetailPage nz page lid).platform ≠ "" ∧
      (parseDetailPage nz page lid).url =
        baseUrl ++ "/ban-nha-pr" ++ lid ∧
      pyStartsWith (parseDetailPage nz page lid).url "http" = true) := by
  have hid : ∀ (nz : Normalizers) (card : ListingCard),
      cardId nz card ≠ "" := by
    intro nz card
    unfold cardId
    split
    · exact append_left_ne_empty _ _ (by decide)
    · exact append_left_ne_empty _ _ (by decide)
  have hurl : ∀ card : ListingCard, card.href.getD "" ≠ "" →
      pyStartsWith (cardUrl card) "http" = true := by
    intro card h0
    unfold cardUrl
    by_cases hb : pyStartsWith (card.href.getD "") "http" = false
    · rw [if_pos ⟨h0, hb⟩]
      exact pyStartsWith_baseUrl _
    · rw [if_neg (fun hcond => hb hcond.2)]
      cases hbv : pyStartsWith (card.href.getD "") "http" with
      | false => exact absurd hbv hb
      | true => rfl
  constructor
  · intro nz card l h
    cases hts : card.titleText with
    | none => simp [parseListingCard, hts] at h
    | some title =>
      simp only [parseListingCard, hts, Option.some.injEq] at h
      subst h
      exact ⟨hid nz card, platformId_ne_empty, hurl card⟩
  · intro nz page lid
    refine ⟨?_, platformId_ne_empty, rfl, ?_⟩
    · exact append_left_ne_empty _ _ (by decide)
    · dsimp only [parseDetailPage]
      rw [String.append_assoc]
      exact pyStartsWith_baseUrl _

/-- A card with a relative `href` carrying a native listing id. -/
def cardRelHref : ListingCard :=
  { titleText := some "Ban nha", href := some "/ban-nha-pho-pr123.html" }

/-- The listing `_parse_listing_card` produces from `cardRelHref` under the
trivial normalizers. -/
def wCardListing : UnifiedListing :=
  { id := "batdongsan_123", platform := "batdongsan", title := "Ban nha",
    price_text := some "", area_text := some "", address := some "",
    url := "https://batdongsan.com.vn/ban-nha-pho-pr123.html" }

/-- C7 witness: the amended theorem applied to a concrete card with a
relative href. -/
theorem parse_listing_invariants_witness :
    cardRelHref.href.getD "" ≠ "" ∧
    (wCardListing.id ≠ "" ∧ wCardListing.platform ≠ "" ∧
      (cardRelHref.href.getD "" ≠ "" →
        pyStartsWith wCardListing.url "http" = true)) :=
  ⟨by decide,
   parse_listing_invariants.1 nzTrivial cardRelHref wCardListing (by decide)⟩

end BatDongSanAdapter
